import Mathlib

/-!
# Verification of the observability/db template library

A shallow embedding of the repository's core modules:

* `libs/db/utils.py` — SQL identifier validation and query builders;
* `libs-example/observability/metrics.py` — `MetricsRegistry`, the
  process-wide registry cache, port probing, server startup and shutdown;
* `libs/observability/logging.py` — correlation-id slot;
* `libs/observability/decorators.py` — the `manage_metrics` wrapper;
* `libs-example/observability/shutdown.py` — `async_wait_for_termination`.

External capabilities (the Prometheus client sink, the OS socket layer,
the system clock, `uuid`) are modelled as explicit parameters: the set of
occupied ports is a predicate `Nat → Bool`, the clock a `Nat`, generated
correlation ids a `String` parameter.  Instrument values live directly in
the registry structure (association lists from label tuples to counts),
which is the sink capability's observable state.
-/

/-- Python-dict insertion: replace the binding of `k` in place if present,
otherwise append at the end (Python dicts preserve insertion order). -/
def dictInsert [BEq κ] (k : κ) (v : α) : List (κ × α) → List (κ × α)
  | [] => [(k, v)]
  | (k₁, v₁) :: rest => if k₁ == k then (k, v) :: rest else (k₁, v₁) :: dictInsert k v rest

/-! ## `libs/db/utils.py` -/

/-- One character of `[a-zA-Z0-9_]`. -/
def identTailChar (c : Char) : Bool :=
  c.isAlpha || c.isDigit || c == '_'

/-- Core match of the regex `[a-zA-Z_][a-zA-Z0-9_]*` against a whole string. -/
def identMatch : List Char → Bool
  | [] => false
  | c :: rest => (c.isAlpha || c == '_') && rest.all identTailChar

/-- Python `re.match` of `^[a-zA-Z_][a-zA-Z0-9_]*$`: `$` also matches just
before a single trailing newline, so `"abc\n"` matches. -/
def pyIdentFullMatch (l : List Char) : Bool :=
  identMatch l || (l.getLast? == some '\n' && identMatch l.dropLast)

/-- Models `sanitize_identifier` from `libs/db/utils.py`: returns the identifier
unchanged when it matches, raises `ValueError` otherwise. -/
def sanitize_identifier (identifier : String) : Except String String :=
  if pyIdentFullMatch identifier.toList then Except.ok identifier
  else Except.error ("Invalid identifier " ++ identifier)

/-- Models `build_insert_query` from `libs/db/utils.py`.  `data` is the ordered
column/value dict; only its keys shape the query. -/
def build_insert_query (table_name : String) (data : List (String × α))
    (dialect : String) : Except String String := do
  let _ ← sanitize_identifier table_name
  let sanitized ← data.mapM (fun kv => sanitize_identifier kv.1)
  let columns := String.intercalate ", " sanitized
  let values ←
    if dialect == "clickhouse" then
      pure (String.intercalate ", " (data.map (fun kv => "%(" ++ kv.1 ++ ")s")))
    else if dialect == "postgres" || dialect == "postgresql" then
      pure (String.intercalate ", " (data.map (fun _ => "%s")))
    else if dialect == "mysql" then
      pure (String.intercalate ", " (data.map (fun _ => "%s")))
    else
      Except.error ("Unsupported dialect: " ++ dialect)
  pure ("INSERT INTO " ++ table_name ++ " (" ++ columns ++ ") VALUES (" ++ values ++ ")")

/-- The second component of `build_batch_insert`'s returned tuple: either the
record dicts themselves (ClickHouse) or per-row value lists. -/
inductive BatchParams (α : Type) where
  | records : List (List (String × α)) → BatchParams α
  | rows : List (List (Option α)) → BatchParams α
deriving DecidableEq

/-- Models `build_batch_insert` from `libs/db/utils.py`.  An empty `records` list
short-circuits to `("", [])` before any validation. -/
def build_batch_insert (table_name : String) (records : List (List (String × α)))
    (dialect : String) : Except String (String × BatchParams α) := do
  if records.isEmpty then
    return ("", BatchParams.rows [])
  let _ ← sanitize_identifier table_name
  let columns := (records.headD []).map Prod.fst
  let _ ← columns.mapM sanitize_identifier
  let cols_str := String.intercalate ", " columns
  if dialect == "clickhouse" then
    return ("INSERT INTO " ++ table_name ++ " (" ++ cols_str ++ ") VALUES",
            BatchParams.records records)
  else
    let placeholders := String.intercalate ", " (columns.map (fun _ => "%s"))
    return ("INSERT INTO " ++ table_name ++ " (" ++ cols_str ++ ") VALUES (" ++ placeholders ++ ")",
            BatchParams.rows (records.map (fun rec => columns.map (fun c => rec.lookup c))))

/-! ## `libs-example/observability/metrics.py` -/

/-- Models `needle in hay` substring containment on strings (Python substring containment), over char
lists. -/
def containsSublist [BEq α] (needle : List α) : List α → Bool
  | [] => needle.isEmpty
  | c :: t => needle.isPrefixOf (c :: t) || containsSublist needle t

/-- The observable state of one `MetricsRegistry` object.  Instrument values
(held by the Prometheus sink in the source) are stored inline:
`errors_total` maps an `(error_type, component)` label pair to its count,
`dyn_counters` maps a dynamically `setattr`-installed counter name to its
per-`component` counts. -/
structure MetricsRegistry where
  service_name : String
  port : Option Nat
  server : Option Nat
  port_mapping : List (String × Nat)
  service_info : List (String × String)
  service_start_time : Nat
  errors_total : List ((String × String) × Nat)
  health_status : Int
  dyn_counters : List (String × List (String × Nat))
deriving DecidableEq

/-- Value of a labelled counter cell, `0` when the label pair was never
incremented. -/
def counterGet (labels : String × String) (c : List ((String × String) × Nat)) : Nat :=
  (c.lookup labels).getD 0

/-- Models `.labels(...).inc()` on a labelled counter. -/
def counterInc (labels : String × String)
    (c : List ((String × String) × Nat)) : List ((String × String) × Nat) :=
  dictInsert labels (counterGet labels c + 1) c

/-- Models `MetricsRegistry.__init__` followed by `_init_common_metrics`, with the
default label extractor (as used by `setup_metrics`).  `now` is the clock
read by `set_to_current_time`.  The health gauge starts at `1`. -/
def MetricsRegistry.init (service_name : String) (now : Nat) (port : Option Nat)
    (port_mapping : List (String × Nat)) : MetricsRegistry :=
  { service_name := service_name
    port := port
    server := none
    port_mapping := port_mapping
    service_info := [("service_name", service_name), ("version", "1.0.0"),
                     ("service", service_name)]
    service_start_time := now
    errors_total := []
    health_status := 1
    dyn_counters := [] }

/-- Models `record_error`: increment `service_errors_total` at
`(error_type, component)`. -/
def MetricsRegistry.record_error (r : MetricsRegistry)
    (error_type component : String) : MetricsRegistry :=
  { r with errors_total := counterInc (error_type, component) r.errors_total }

/-- Models `set_health_status`: the gauge is written as `1 if healthy else 0`. -/
def MetricsRegistry.set_health_status (r : MetricsRegistry) (healthy : Bool) :
    MetricsRegistry :=
  { r with health_status := if healthy then 1 else 0 }

/-- Models `_get_default_port`: environment override, then first substring match in
the port mapping, then `9090`.  `env_port` models `os.getenv` of
`METRICS_PORT`. -/
def MetricsRegistry.default_port (r : MetricsRegistry) (env_port : Option Nat) : Nat :=
  match env_port with
  | some p => p
  | none =>
    match r.port_mapping.find? (fun kv => containsSublist kv.1.toList r.service_name.toList) with
    | some kv => kv.2
    | none => 9090

/-- Models `_is_port_available`: the OS socket layer is the predicate
`occupied`. -/
def _is_port_available (occupied : Nat → Bool) (port : Nat) : Bool :=
  !occupied port

/-- The `for port in range(start_port, start_port + 100)` loop of
`_find_available_port`, with the remaining iteration count explicit. -/
def findPortLoop (occupied : Nat → Bool) : Nat → Nat → Option Nat
  | _, 0 => none
  | p, n + 1 => if _is_port_available occupied p then some p else findPortLoop occupied (p + 1) n

/-- Models `_find_available_port`: first free port among the 100 ports starting at
`start_port`, `RuntimeError` when all are taken. -/
def _find_available_port (occupied : Nat → Bool) (start_port : Nat) : Except String Nat :=
  match findPortLoop occupied start_port 100 with
  | some p => Except.ok p
  | none => Except.error "No available ports found"

/-- Result of one `start_metrics_server` call: the updated registry, the
returned boolean, and the list of listening sockets the call opened. -/
structure StartResult where
  registry : MetricsRegistry
  ok : Bool
  opened : List Nat
deriving DecidableEq

/-- Models `start_metrics_server`: short-circuit when a server handle already
exists; otherwise resolve the target port (argument, then stored port, then
default), probe when it is taken, bind, and record the bound port.  The
server handle is modelled by the bound port. -/
def MetricsRegistry.start_metrics_server (r : MetricsRegistry) (occupied : Nat → Bool)
    (env_port : Option Nat) (port : Option Nat) : Except String StartResult :=
  match r.server with
  | some _ => Except.ok ⟨r, true, []⟩
  | none =>
    let target_port := port.getD (r.port.getD (r.default_port env_port))
    let resolved : Except String Nat :=
      if _is_port_available occupied target_port then Except.ok target_port
      else _find_available_port occupied target_port
    match resolved with
    | Except.error e => Except.error e
    | Except.ok tp =>
      Except.ok ⟨{ r with server := some tp, port := some tp }, true, [tp]⟩

/-- The module-level mutable state: `_service_registries` and
`_metrics_servers` (both Python dicts keyed by service name). -/
structure GlobalState where
  service_registries : List (String × MetricsRegistry)
  metrics_servers : List (String × Nat)
deriving DecidableEq

/-- Models `get_metrics_registry`: `_service_registries.get(service_name)`. -/
def get_metrics_registry (st : GlobalState) (service_name : String) :
    Option MetricsRegistry :=
  st.service_registries.lookup service_name

/-- Models `setup_metrics`: under the module lock, return the cached registry when
present; otherwise construct one, insert it, optionally start its server
(recording the handle on success), and return it.  A port-exhaustion
`RuntimeError` propagates, but the freshly-inserted registry stays cached. -/
def setup_metrics (occupied : Nat → Bool) (env_port : Option Nat) (now : Nat)
    (st : GlobalState) (service_name : String) (port : Option Nat)
    (port_mapping : List (String × Nat)) (start_server : Bool) :
    GlobalState × Except String MetricsRegistry :=
  match st.service_registries.lookup service_name with
  | some r => (st, Except.ok r)
  | none =>
    let r₀ := MetricsRegistry.init service_name now port port_mapping
    let st₁ : GlobalState :=
      { st with service_registries := dictInsert service_name r₀ st.service_registries }
    if start_server then
      match r₀.start_metrics_server occupied env_port none with
      | Except.error e => (st₁, Except.error e)
      | Except.ok res =>
        let st₂ : GlobalState :=
          { service_registries := dictInsert service_name res.registry st₁.service_registries
            metrics_servers :=
              if res.ok then
                match res.registry.server with
                | some h => dictInsert service_name h st₁.metrics_servers
                | none => st₁.metrics_servers
              else st₁.metrics_servers }
        (st₂, Except.ok res.registry)
    else (st₁, Except.ok r₀)

/-- Models `shutdown_metrics_servers`: stop every tracked server and clear
`_metrics_servers`.  The second component lists the handles that were
stopped.  `_service_registries` is not touched. -/
def shutdown_metrics_servers (st : GlobalState) : GlobalState × List Nat :=
  ({ st with metrics_servers := [] }, st.metrics_servers.map Prod.snd)

/-! ## `libs/observability/logging.py` -/

/-- Models `get_correlation_id`: `getattr(_correlation_context, 'correlation_id',
None)` — the calling context's slot, absent when never set. -/
def get_correlation_id (slot : Option String) : Option String :=
  slot

/-- Models `set_correlation_id`: overwrite the calling context's slot (the source
also stores `None` through this function to clear it). -/
def set_correlation_id (_slot : Option String) (correlation_id : Option String) :
    Option String :=
  correlation_id

/-! ## `libs/observability/decorators.py` -/

/-- Attribute names a `MetricsRegistry` object answers `hasattr` for before
any dynamic counter is installed: the instance attributes assigned in
`__init__` and `_init_common_metrics`, the methods of the class, and the
object-protocol dunder names inherited from `object`. -/
def registryAttrNames : List String :=
  ["service_name", "registry", "port", "server", "_port_mapping",
   "_label_extractor", "_common_labels", "service_info", "service_start_time",
   "errors_total", "health_status",
   "_default_label_extractor", "_init_common_metrics", "create_counter",
   "create_histogram", "create_gauge", "start_metrics_server",
   "_get_default_port", "_is_port_available", "_find_available_port",
   "get_metrics_text", "record_error", "set_health_status",
   "__class__", "__delattr__", "__dict__", "__dir__", "__doc__", "__eq__",
   "__format__", "__ge__", "__getattribute__", "__getstate__", "__gt__",
   "__hash__", "__init__", "__init_subclass__", "__le__", "__lt__",
   "__module__", "__ne__", "__new__", "__reduce__", "__reduce_ex__",
   "__repr__", "__setattr__", "__sizeof__", "__str__", "__subclasshook__",
   "__weakref__"]

/-- Models `hasattr(metrics_registry, name)`: true for the object's built-in
attributes and methods and for every dynamically `setattr`-installed
counter. -/
def hasattrRegistry (r : MetricsRegistry) (name : String) : Bool :=
  registryAttrNames.contains name || (r.dyn_counters.lookup name).isSome

/-- Metric names `_init_common_metrics` leaves registered in the sink
(`CollectorRegistry`), including the sample-name variants the Prometheus
client derives for them (`_total`, `_created`, `_info`); a later
`create_counter` under any of these raises the duplicated-timeseries
`ValueError`. -/
def sinkMetricNames : List String :=
  ["service_info", "service_info_info", "service_start_time_seconds",
   "service_errors", "service_errors_total", "service_errors_created",
   "service_health_status"]

/-- Models `setattr(registry, name, registry.create_counter(name, ...,
labelnames=["component"]))` once the sink's duplicate check has passed
(see `successInstr`, which performs that check first): install a fresh,
empty `component`-labelled counter under `name`. -/
def installFreshCounter (r : MetricsRegistry) (name : String) : MetricsRegistry :=
  { r with dyn_counters := dictInsert name [] r.dyn_counters }

/-- Models `getattr(registry, name).labels(component=...).inc()`. -/
def dynInc (r : MetricsRegistry) (name component : String) : MetricsRegistry :=
  let table := (r.dyn_counters.lookup name).getD []
  let table₁ := dictInsert component ((table.lookup component).getD 0 + 1) table
  { r with dyn_counters := dictInsert name table₁ r.dyn_counters }

/-- The success-branch instrumentation in the wrapper's `try` block after
`func` has returned.  When `hasattr` holds, the attribute's
`.labels(component="main").inc()` runs: it succeeds only for a
wrapper-installed `component`-labelled counter and raises otherwise
(AttributeError on plain attributes and methods, ValueError on the
differently-labelled built-in instruments).  When `hasattr` fails,
`create_counter` raises the sink's duplicated-timeseries ValueError if the
name is already registered there; otherwise the counter is installed,
incremented at `component="main"`, and health is set up.  An error here is
raised inside the `try` block, to be routed through the wrapper's `except`
branch. -/
def successInstr (r : MetricsRegistry) (success_metric_name : String) :
    Except String MetricsRegistry :=
  if hasattrRegistry r success_metric_name then
    match r.dyn_counters.lookup success_metric_name with
    | some _ =>
      Except.ok ((dynInc r success_metric_name "main").set_health_status true)
    | none => Except.error "AttributeError: attribute has no labels method"
  else
    if sinkMetricNames.contains success_metric_name then
      Except.error "ValueError: Duplicated timeseries in CollectorRegistry"
    else
      Except.ok ((dynInc (installFreshCounter r success_metric_name)
        success_metric_name "main").set_health_status true)

/-- The world a `manage_metrics`-wrapped call touches: the metrics module
state and the calling context's correlation slot. -/
structure WorldState where
  gs : GlobalState
  correlation : Option String
deriving DecidableEq

/-- Outcome of one wrapped call: the world afterwards and the value or
re-raised exception handed to the caller. -/
structure CallResult (α : Type) where
  world : WorldState
  result : Except String α

/-- The `wrapper` closure produced by `manage_metrics(success, failure)`.

`f` is the wrapped function's own outcome (it neither reads nor writes the
instrumented state in the scenarios the spec states); `args_first_str` is
the first positional argument when it is a string, `kw_service_name` the
`service_name` keyword argument; `gen_id` models
`generate_correlation_id()`.

The source resolves the registry from those two argument slots; when
neither resolves, the `capture_locals` fallback runs the function and its
`locals()` probe always yields `None`, so instrumentation is skipped.  On
success it runs the success-branch instrumentation (`successInstr`); an
error raised by that instrumentation itself — colliding attribute or
duplicated sink name — is caught by the same `except` branch, which records
the failure metric at `component="main"`, sets health down, and re-raises
it.  On failure of `func` the `except` branch does the same with the
original error.  The `finally` block always clears the correlation
slot. -/
def manage_metrics (success_metric_name failure_metric_name : String)
    (f : Except String α) (args_first_str kw_service_name : Option String)
    (gen_id : String) (w : WorldState) : CallResult α :=
  let correlation_id := (get_correlation_id w.correlation).getD gen_id
  let w₁ : WorldState := { w with correlation := set_correlation_id w.correlation (some correlation_id) }
  let reg_name : Option String :=
    match args_first_str with
    | some s => some s
    | none => kw_service_name
  let mreg : Option (String × MetricsRegistry) :=
    match reg_name with
    | some n => (get_metrics_registry w₁.gs n).map (fun r => (n, r))
    | none => none
  match f with
  | Except.ok v =>
    match mreg with
    | none => ⟨{ w₁ with correlation := set_correlation_id w₁.correlation none }, Except.ok v⟩
    | some (n, r) =>
      match successInstr r success_metric_name with
      | Except.ok r₃ =>
        ⟨{ gs := { w₁.gs with
              service_registries := dictInsert n r₃ w₁.gs.service_registries }
           correlation := set_correlation_id w₁.correlation none }, Except.ok v⟩
      | Except.error e =>
        let r₁ := r.record_error failure_metric_name "main"
        let r₂ := r₁.set_health_status false
        ⟨{ gs := { w₁.gs with
              service_registries := dictInsert n r₂ w₁.gs.service_registries }
           correlation := set_correlation_id w₁.correlation none }, Except.error e⟩
  | Except.error e =>
    match mreg with
    | none => ⟨{ w₁ with correlation := set_correlation_id w₁.correlation none }, Except.error e⟩
    | some (n, r) =>
      let r₁ := r.record_error failure_metric_name "main"
      let r₂ := r₁.set_health_status false
      ⟨{ gs := { w₁.gs with
            service_registries := dictInsert n r₂ w₁.gs.service_registries }
         correlation := set_correlation_id w₁.correlation none }, Except.error e⟩

/-! ## `libs-example/observability/shutdown.py` -/

/-- The `while elapsed < timeout` loop of `async_wait_for_termination`.
`is_set k` is the value `terminate_event.is_set()` reads at the k-th check;
`k * check_interval` is the tracked `elapsed`.  The returned list holds the
durations passed to `asyncio.sleep`, in order.  `fuel` bounds the remaining
iterations; the caller supplies enough for the loop to run to its real
exit. -/
def async_wait_aux (is_set : Nat → Bool) (timeout check_interval : ℚ) :
    Nat → Nat → Bool × List ℚ
  | 0, k => (is_set k, [])
  | fuel + 1, k =>
    if (k : ℚ) * check_interval < timeout then
      if is_set k then (true, [])
      else
        let slice := min check_interval (timeout - (k : ℚ) * check_interval)
        let rest := async_wait_aux is_set timeout check_interval fuel (k + 1)
        (rest.1, slice :: rest.2)
    else (is_set k, [])

/-- Models `async_wait_for_termination(timeout, check_interval)`: poll the
termination flag, sleeping `min(check_interval, timeout - elapsed)` between
checks, and report whether the flag was observed set.  The fuel
`⌈timeout / check_interval⌉ + 1` covers every iteration the Python loop can
perform. -/
def async_wait_for_termination (is_set : Nat → Bool) (timeout check_interval : ℚ) :
    Bool × List ℚ :=
  async_wait_aux is_set timeout check_interval (⌈timeout / check_interval⌉₊ + 1) 0

/-- The registry-mutating operations the source performs on a
`MetricsRegistry` after construction: the explicit health/error calls, a
server start, and the wrapper's dynamic counter installation and
increment. -/
inductive RegOp where
  | recordError (error_type component : String)
  | setHealth (healthy : Bool)
  | startServer (occupied : Nat → Bool) (env_port : Option Nat) (port : Option Nat)
  | installCounter (name : String)
  | incCounter (name component : String)

/-- Effect of one operation on the registry (a failed server start leaves
the registry as the exception propagates). -/
def RegOp.apply (r : MetricsRegistry) : RegOp → MetricsRegistry
  | RegOp.recordError et c => r.record_error et c
  | RegOp.setHealth b => r.set_health_status b
  | RegOp.startServer occ env p =>
    match r.start_metrics_server occ env p with
    | Except.ok res => res.registry
    | Except.error _ => r
  | RegOp.installCounter n => installFreshCounter r n
  | RegOp.incCounter n c => dynInc r n c

/-! ## Lemmas about identifier validation -/

/-- A digit cannot open an identifier: digits are neither ASCII letters nor
the underscore. -/
lemma digit_not_identhead (c : Char) (hd : c.isDigit = true) :
    (c.isAlpha || c == '_') = false := by
  simp only [Char.isDigit, Bool.and_eq_true, decide_eq_true_eq, Char.le_def,
    UInt32.le_def, BitVec.le_def] at hd
  have h0 : (UInt32.toBitVec 48).toNat = 48 := rfl
  have h9 : (UInt32.toBitVec 57).toNat = 57 := rfl
  rw [h0, h9] at hd
  simp only [Bool.or_eq_false_iff, Bool.and_eq_false_iff, Char.isAlpha, Char.isUpper,
    Char.isLower, decide_eq_false_iff_not, not_le, beq_eq_false_iff_ne, ne_eq,
    Char.ext_iff, Char.le_def, Char.lt_def, UInt32.le_def, UInt32.lt_def, BitVec.le_def,
    BitVec.lt_def, UInt32.ext_iff, BitVec.toNat_eq]
  have hA : (UInt32.toBitVec 65).toNat = 65 := rfl
  have hZ : (UInt32.toBitVec 90).toNat = 90 := rfl
  have ha : (UInt32.toBitVec 97).toNat = 97 := rfl
  have hz : (UInt32.toBitVec 122).toNat = 122 := rfl
  have hu : ('_' : Char).val.toNat = 95 := rfl
  have hb : c.val.toNat = c.val.toBitVec.toNat := rfl
  rw [hA, hZ, ha, hz, hu, hb]
  omega

/-- Every character of a string accepted by the core regex is a word
character. -/
lemma identMatch_all_identTail (l : List Char) (h : identMatch l = true) :
    ∀ c ∈ l, identTailChar c = true := by
  match l with
  | [] => simp [identMatch] at h
  | c₀ :: rest =>
    simp only [identMatch, Bool.and_eq_true, List.all_eq_true] at h
    intro c hc
    rcases List.mem_cons.mp hc with hc | hc
    · subst hc
      rcases Bool.or_eq_true_iff.mp h.1 with h₁ | h₁ <;>
        simp [identTailChar, h₁]
    · exact h.2 c hc

/-- A string containing a non-word character other than a trailing newline
is rejected by the Python full match. -/
lemma pyIdentFullMatch_rejects (c : Char) (hc : identTailChar c = false)
    (hnl : c ≠ '\n') (l : List Char) (hmem : c ∈ l) :
    pyIdentFullMatch l = false := by
  rw [pyIdentFullMatch]
  have hcore : identMatch l = false := by
    by_contra h
    have := identMatch_all_identTail l (by revert h; cases identMatch l <;> simp) c hmem
    rw [hc] at this
    exact Bool.false_ne_true this
  rw [hcore]
  simp only [Bool.false_or, Bool.and_eq_false_iff]
  by_cases hlast : l.getLast? = some '\n'
  · right
    have hne : l ≠ [] := by
      intro h
      rw [h] at hlast
      simp at hlast
    have hdecomp : l.dropLast ++ [l.getLast hne] = l := List.dropLast_append_getLast hne
    have hlv : l.getLast hne = '\n' := by
      have := List.getLast?_eq_getLast l hne
      rw [hlast] at this
      exact (Option.some_injective _ this.symm)
    rcases List.mem_append.mp (by rw [hdecomp]; exact hmem) with hin | hin
    · by_contra h
      have := identMatch_all_identTail l.dropLast
        (by revert h; cases identMatch l.dropLast <;> simp) c hin
      rw [hc] at this
      exact Bool.false_ne_true this
    · rw [hlv] at hin
      simp only [List.mem_singleton] at hin
      exact absurd hin hnl
  · left
    simp only [beq_eq_false_iff_ne, ne_eq]
    exact hlast

/-- A string whose first character is a digit is rejected by the Python
full match. -/
lemma pyIdentFullMatch_rejects_digit (c : Char) (hd : c.isDigit = true)
    (l : List Char) (hhead : l.head? = some c) :
    pyIdentFullMatch l = false := by
  match l with
  | [] => simp at hhead
  | c₀ :: rest =>
    simp only [List.head?_cons, Option.some_inj] at hhead
    subst hhead
    rw [pyIdentFullMatch]
    have hcore : identMatch (c₀ :: rest) = false := by
      rw [identMatch, digit_not_identhead c₀ hd, Bool.false_and]
    rw [hcore, Bool.false_or]
    match rest with
    | [] =>
      simp only [List.dropLast_single, identMatch, Bool.and_false]
    | d :: rest₁ =>
      have : (c₀ :: d :: rest₁).dropLast = c₀ :: (d :: rest₁).dropLast := rfl
      rw [this, identMatch, digit_not_identhead c₀ hd, Bool.false_and, Bool.and_false]

/-- C9 (counterexample): the claim says an empty required input to the
query-builder helpers is signaled immediately as an error, but
`build_batch_insert` called with an empty records list returns
`("", [])` successfully, handling the empty input silently. -/
theorem C9_counterexample :
    build_batch_insert "users" ([] : List (List (String × Nat))) "clickhouse"
        = Except.ok ("", BatchParams.rows []) ∧
    (build_batch_insert "users" ([] : List (List (String × Nat))) "clickhouse").isOk
        = true :=
  ⟨rfl, rfl⟩

/-- C9 (amended): invalid identifiers and unsupported dialects are signaled
immediately to the caller as errors; identifier validation rejects every
string containing a semicolon or a space or starting with a digit, and
accepts `_col1` and `Table_Name` unchanged; but `build_batch_insert` with
an empty records list returns an empty query and empty parameters without
signaling an error. -/
theorem C9_config_errors_signaled (s : String) :
    (';' ∈ s.toList → (sanitize_identifier s).isOk = false) ∧
    (' ' ∈ s.toList → (sanitize_identifier s).isOk = false) ∧
    (s.toList.head?.any Char.isDigit = true → (sanitize_identifier s).isOk = false) ∧
    sanitize_identifier "_col1" = Except.ok "_col1" ∧
    sanitize_identifier "Table_Name" = Except.ok "Table_Name" ∧
    (∀ (d tbl : String) (data : List (String × Nat)),
      d ≠ "clickhouse" → d ≠ "postgres" → d ≠ "postgresql" → d ≠ "mysql" →
      (build_insert_query tbl data d).isOk = false) ∧
    build_batch_insert "users" ([] : List (List (String × Nat))) "clickhouse"
        = Except.ok ("", BatchParams.rows []) := by
  refine ⟨?_, ?_, ?_, rfl, rfl, ?_, rfl⟩
  · intro hmem
    have h : pyIdentFullMatch s.data = false :=
      pyIdentFullMatch_rejects ';' (by decide) (by decide) s.toList hmem
    simp [sanitize_identifier, String.toList, h, Except.isOk, Except.toBool]
  · intro hmem
    have h : pyIdentFullMatch s.data = false :=
      pyIdentFullMatch_rejects ' ' (by decide) (by decide) s.toList hmem
    simp [sanitize_identifier, String.toList, h, Except.isOk, Except.toBool]
  · intro hd
    cases hh : s.toList.head? with
    | none => rw [hh] at hd; simp [Option.any] at hd
    | some c =>
      rw [hh] at hd
      simp only [Option.any] at hd
      have h : pyIdentFullMatch s.data = false :=
        pyIdentFullMatch_rejects_digit c hd s.toList hh
      simp [sanitize_identifier, String.toList, h, Except.isOk, Except.toBool]
  · intro d tbl data h1 h2 h3 h4
    simp only [build_insert_query, bind, Except.bind]
    cases hs : sanitize_identifier tbl with
    | error e => simp [Except.isOk, Except.toBool]
    | ok v =>
      cases hm : data.mapM (fun kv => sanitize_identifier kv.1) with
      | error e => simp [Except.isOk, Except.toBool]
      | ok cols => simp [Except.isOk, Except.toBool, h1, h2, h3, h4, pure, Except.pure]

/-- Witness for C9: a string with a semicolon, one with a space, and one
with a leading digit are each rejected, and an unsupported dialect is
rejected. -/
theorem C9_config_errors_signaled_witness :
    (sanitize_identifier "a;b").isOk = false ∧
    (sanitize_identifier "a b").isOk = false ∧
    (sanitize_identifier "1col").isOk = false ∧
    (build_insert_query "users" ([("id", 1)] : List (String × Nat)) "oracle").isOk = false :=
  ⟨(C9_config_errors_signaled "a;b").1 (by decide),
   (C9_config_errors_signaled "a b").2.1 (by decide),
   (C9_config_errors_signaled "1col").2.2.1 (by decide),
   (C9_config_errors_signaled "x").2.2.2.2.2.1 "oracle" "users" [("id", 1)]
     (by decide) (by decide) (by decide) (by decide)⟩

/-! ## Lemmas about the registry cache and port probing -/

/-- Looking up the key just inserted by `dictInsert` yields the new
value. -/
lemma lookup_dictInsert_self [BEq κ] [LawfulBEq κ] (k : κ) (v : α) :
    ∀ l : List (κ × α), (dictInsert k v l).lookup k = some v := by
  intro l
  induction l with
  | nil => simp [dictInsert, List.lookup]
  | cons hd tl ih =>
    obtain ⟨k₁, v₁⟩ := hd
    rw [dictInsert]
    by_cases h : k₁ == k
    · rw [if_pos h]
      simp [List.lookup]
    · rw [if_neg (by simp_all)]
      rw [List.lookup]
      have hne₁ : k₁ ≠ k := by simpa using h
      have hf : (k == k₁) = false := beq_eq_false_iff_ne.mpr (fun he => hne₁ he.symm)
      rw [hf]
      exact ih

/-- Models `dictInsert` leaves the binding of every other key unchanged. -/
lemma lookup_dictInsert_ne [BEq κ] [LawfulBEq κ] (k k₂ : κ) (v : α)
    (hne : k₂ ≠ k) :
    ∀ l : List (κ × α), (dictInsert k v l).lookup k₂ = l.lookup k₂ := by
  intro l
  induction l with
  | nil =>
    simp only [dictInsert, List.lookup]
    rw [show (k₂ == k) = false by simpa using hne]
  | cons hd tl ih =>
    obtain ⟨k₁, v₁⟩ := hd
    rw [dictInsert]
    by_cases h : k₁ == k
    · rw [if_pos h]
      have hk : k₁ = k := by simpa using h
      subst hk
      simp only [List.lookup]
      rw [show (k₂ == k₁) = false by simpa using hne]
    · rw [if_neg (by simp_all)]
      simp only [List.lookup]
      cases hq : k₂ == k₁
      · exact ih
      · rfl

/-- A `setup_metrics` call that finds the service name cached returns the
cached registry and leaves the module state untouched. -/
lemma setup_metrics_cached (occupied : Nat → Bool) (env_port : Option Nat) (now : Nat)
    (st : GlobalState) (service_name : String) (port : Option Nat)
    (pm : List (String × Nat)) (ss : Bool) (r : MetricsRegistry)
    (h : st.service_registries.lookup service_name = some r) :
    setup_metrics occupied env_port now st service_name port pm ss = (st, Except.ok r) := by
  rw [setup_metrics, h]

/-- A `setup_metrics` call that misses the cache leaves the service name
bound in the cache afterwards, whatever the server-start outcome. -/
lemma setup_metrics_inserts (occupied : Nat → Bool) (env_port : Option Nat) (now : Nat)
    (st : GlobalState) (service_name : String) (port : Option Nat)
    (pm : List (String × Nat)) (ss : Bool)
    (h : st.service_registries.lookup service_name = none) :
    ((setup_metrics occupied env_port now st service_name port pm ss).1.service_registries.lookup
      service_name).isSome = true := by
  rw [setup_metrics, h]
  cases ss with
  | false =>
    simp only [Bool.false_eq_true, if_false]
    rw [lookup_dictInsert_self]
    rfl
  | true =>
    simp only [if_true]
    cases hstart : (MetricsRegistry.init service_name now port pm).start_metrics_server
        occupied env_port none with
    | error e =>
      simp only []
      rw [lookup_dictInsert_self]
      rfl
    | ok res =>
      simp only []
      rw [lookup_dictInsert_self]
      rfl

/-- C1: for every service name, a setup call that misses the process-wide
cache leaves a registry cached under that name, and every subsequent setup
call for the same name (whatever its own arguments) returns that cached
registry unchanged and leaves the whole module state unchanged — in
particular it constructs no new registry and starts no second exposition
server, so the cache maps each service name to at most one registry. -/
theorem C1_setup_idempotent_cache (occupied occupied₂ : Nat → Bool)
    (env_port env_port₂ : Option Nat) (now now₂ : Nat) (st : GlobalState)
    (service_name : String) (port port₂ : Option Nat)
    (pm pm₂ : List (String × Nat)) (ss ss₂ : Bool)
    (habsent : st.service_registries.lookup service_name = none) :
    ((setup_metrics occupied env_port now st service_name port pm ss).1.service_registries.lookup
        service_name).isSome = true ∧
    ∀ r, (setup_metrics occupied env_port now st service_name port pm ss).1.service_registries.lookup
          service_name = some r →
      setup_metrics occupied₂ env_port₂ now₂
          (setup_metrics occupied env_port now st service_name port pm ss).1
          service_name port₂ pm₂ ss₂ =
        ((setup_metrics occupied env_port now st service_name port pm ss).1, Except.ok r) := by
  refine ⟨setup_metrics_inserts occupied env_port now st service_name port pm ss habsent, ?_⟩
  intro r hr
  exact setup_metrics_cached occupied₂ env_port₂ now₂ _ service_name port₂ pm₂ ss₂ r hr

/-- Witness for C1: on an empty cache with all ports free, setting up
service `svc` caches one registry (bound to port 9090), and a second setup
call returns exactly that registry with the state unchanged. -/
theorem C1_setup_idempotent_cache_witness :
    (((setup_metrics (fun _ => false) none 0 ⟨[], []⟩ "svc" none [] true).1.service_registries.lookup
        "svc").isSome = true) ∧
    setup_metrics (fun _ => false) none 0
        (setup_metrics (fun _ => false) none 0 ⟨[], []⟩ "svc" none [] true).1
        "svc" none [] true =
      ((setup_metrics (fun _ => false) none 0 ⟨[], []⟩ "svc" none [] true).1,
       Except.ok
        { service_name := "svc", port := some 9090, server := some 9090,
          port_mapping := [],
          service_info := [("service_name", "svc"), ("version", "1.0.0"), ("service", "svc")],
          service_start_time := 0, errors_total := [], health_status := 1,
          dyn_counters := [] }) := by
  have h := C1_setup_idempotent_cache (fun _ => false) (fun _ => false) none none 0 0
    ⟨[], []⟩ "svc" none none [] [] true true rfl
  exact ⟨h.1, h.2 _ rfl⟩

/-- C7: `start_metrics_server` is idempotent — when a server handle already
exists on the registry, the call returns success, opens no listener, and
leaves the registry (its bound port and server handle included)
unchanged. -/
theorem C7_start_server_idempotent (r : MetricsRegistry) (occupied : Nat → Bool)
    (env_port port : Option Nat) (h₀ : Nat) (hrun : r.server = some h₀) :
    r.start_metrics_server occupied env_port port = Except.ok ⟨r, true, []⟩ := by
  rw [MetricsRegistry.start_metrics_server, hrun]

/-- Witness for C7: a registry whose server handle is `1` is left unchanged
by a second start call, which opens nothing and reports success. -/
theorem C7_start_server_idempotent_witness :
    MetricsRegistry.start_metrics_server
        { service_name := "svc", port := some 9090, server := some 1,
          port_mapping := [], service_info := [], service_start_time := 0,
          errors_total := [], health_status := 1, dyn_counters := [] }
        (fun _ => false) none none =
      Except.ok
        ⟨{ service_name := "svc", port := some 9090, server := some 1,
           port_mapping := [], service_info := [], service_start_time := 0,
           errors_total := [], health_status := 1, dyn_counters := [] }, true, []⟩ :=
  C7_start_server_idempotent _ (fun _ => false) none none 1 rfl

/-- The probe loop returns the first free port: if `p + j` is free, within
range, and every earlier probe is occupied, the loop stops at `p + j`. -/
lemma findPortLoop_first_free (occupied : Nat → Bool) :
    ∀ (n p j : Nat), j < n → occupied (p + j) = false →
      (∀ i, i < j → occupied (p + i) = true) →
      findPortLoop occupied p n = some (p + j) := by
  intro n
  induction n with
  | zero => intro p j hj; omega
  | succ n ih =>
    intro p j hj hfree hbusy
    rw [findPortLoop]
    cases j with
    | zero =>
      rw [_is_port_available]
      rw [Nat.add_zero] at hfree
      rw [hfree]
      simp
    | succ k =>
      have hp : occupied p = true := by
        have := hbusy 0 (Nat.succ_pos k)
        rwa [Nat.add_zero] at this
      rw [_is_port_available, hp]
      simp only [Bool.not_true, Bool.false_eq_true, if_false]
      have hstep : p + 1 + k = p + (k + 1) := by omega
      rw [ih (p + 1) k (by omega) (by rw [hstep]; exact hfree)
        (fun i hi => by
          have := hbusy (i + 1) (by omega)
          rwa [show p + 1 + i = p + (i + 1) by omega])]
      rw [hstep]

/-- The probe loop fails when every port in range is occupied. -/
lemma findPortLoop_all_busy (occupied : Nat → Bool) :
    ∀ (n p : Nat), (∀ i, i < n → occupied (p + i) = true) →
      findPortLoop occupied p n = none := by
  intro n
  induction n with
  | zero => intro p hp; rfl
  | succ n ih =>
    intro p hbusy
    rw [findPortLoop]
    have hp : occupied p = true := by
      have := hbusy 0 (Nat.succ_pos n)
      rwa [Nat.add_zero] at this
    rw [_is_port_available, hp]
    simp only [Bool.not_true, Bool.false_eq_true, if_false]
    exact ih (p + 1) (fun i hi => by
      have := hbusy (i + 1) (by omega)
      rwa [show p + 1 + i = p + (i + 1) by omega])

/-- C2: with the preferred port `p` already occupied and no server yet
running, `start_metrics_server` binds the lowest free port at or above `p`
within the 100-port probe window, records it as the registry's bound port,
and returns success; when all 100 probed ports are occupied it fails with
the unrecoverable port-exhaustion error. -/
theorem C2_port_resolution (occupied : Nat → Bool) (r : MetricsRegistry)
    (env_port : Option Nat) (p : Nat) (hserver : r.server = none)
    (hocc : occupied p = true) :
    (∀ j, j < 100 → occupied (p + j) = false → (∀ i, i < j → occupied (p + i) = true) →
      r.start_metrics_server occupied env_port (some p) =
        Except.ok ⟨{ r with server := some (p + j), port := some (p + j) }, true, [p + j]⟩) ∧
    ((∀ i, i < 100 → occupied (p + i) = true) →
      r.start_metrics_server occupied env_port (some p) =
        Except.error "No available ports found") := by
  constructor
  · intro j hj hfree hbusy
    rw [MetricsRegistry.start_metrics_server, hserver]
    simp only [Option.getD_some, _is_port_available, hocc, Bool.not_true,
      Bool.false_eq_true, if_false]
    rw [_find_available_port, findPortLoop_first_free occupied 100 p j hj hfree hbusy]
  · intro hbusy
    rw [MetricsRegistry.start_metrics_server, hserver]
    simp only [Option.getD_some, _is_port_available, hocc, Bool.not_true,
      Bool.false_eq_true, if_false]
    rw [_find_available_port, findPortLoop_all_busy occupied 100 p hbusy]

/-- Witness for C2: with ports 9090 and 9091 occupied and 9092 free, the
server binds 9092; with every port occupied, startup fails with the
port-exhaustion error. -/
theorem C2_port_resolution_witness :
    MetricsRegistry.start_metrics_server (MetricsRegistry.init "svc" 0 none [])
        (fun q => decide (q < 9092)) none (some 9090) =
      Except.ok ⟨{ MetricsRegistry.init "svc" 0 none [] with
                    server := some 9092, port := some 9092 }, true, [9092]⟩ ∧
    MetricsRegistry.start_metrics_server (MetricsRegistry.init "svc" 0 none [])
        (fun _ => true) none (some 9090) =
      Except.error "No available ports found" := by
  constructor
  · have h := (C2_port_resolution (fun q => decide (q < 9092))
      (MetricsRegistry.init "svc" 0 none []) none 9090 rfl (by decide)).1 2
      (by omega) (by decide)
      (fun i hi => by simp only [decide_eq_true_eq]; omega)
    simpa using h
  · exact (C2_port_resolution (fun _ => true)
      (MetricsRegistry.init "svc" 0 none []) none 9090 rfl rfl).2
      (fun i _ => rfl)

/-- C8 (counterexample): the claim says that after `shutdown_metrics_servers`
every service name reads as absent from the cache, but after setting up
service `svc` and shutting everything down, `get_metrics_registry` still
returns the cached registry: `_service_registries` is never cleared, only
`_metrics_servers` is. -/
theorem C8_counterexample :
    (get_metrics_registry
        (shutdown_metrics_servers
          (setup_metrics (fun _ => false) none 0 ⟨[], []⟩ "svc" none [] true).1).1
        "svc").isSome = true ∧
    (shutdown_metrics_servers
        (setup_metrics (fun _ => false) none 0 ⟨[], []⟩ "svc" none [] true).1).1.metrics_servers
      = [] :=
  ⟨rfl, rfl⟩

/-- C8 (amended): `shutdown_metrics_servers` stops every tracked server and
clears the server-tracking map, but the registry cache keeps its entries:
for every service name a subsequent get returns exactly what it returned
before the shutdown (the registries persist). -/
theorem C8_shutdown_clears_servers_only (st : GlobalState) (service_name : String) :
    (shutdown_metrics_servers st).1.metrics_servers = [] ∧
    (shutdown_metrics_servers st).2 = st.metrics_servers.map Prod.snd ∧
    get_metrics_registry (shutdown_metrics_servers st).1 service_name =
      get_metrics_registry st service_name :=
  ⟨rfl, rfl, rfl⟩

/-- A server start never changes the health gauge. -/
lemma start_metrics_server_health (r : MetricsRegistry) (occupied : Nat → Bool)
    (env_port port : Option Nat) (res : StartResult)
    (h : r.start_metrics_server occupied env_port port = Except.ok res) :
    res.registry.health_status = r.health_status := by
  rw [MetricsRegistry.start_metrics_server] at h
  split at h
  · simp only [Except.ok.injEq] at h
    subst h
    rfl
  · dsimp only at h
    split at h
    · exact absurd h (by simp)
    · simp only [Except.ok.injEq] at h
      subst h
      rfl

/-- Every operation maps a 0/1 health gauge to a 0/1 health gauge. -/
lemma RegOp.apply_health (r : MetricsRegistry) (op : RegOp)
    (h : r.health_status = 0 ∨ r.health_status = 1) :
    (RegOp.apply r op).health_status = 0 ∨ (RegOp.apply r op).health_status = 1 := by
  cases op with
  | recordError et c => exact h
  | setHealth b =>
    cases b
    · left; rfl
    · right; rfl
  | startServer occ env p =>
    rw [RegOp.apply]
    cases hs : r.start_metrics_server occ env p with
    | error e => exact h
    | ok res => rw [start_metrics_server_health r occ env p res hs]; exact h
  | installCounter n => exact h
  | incCounter n c => exact h

/-- C10: immediately after construction the health gauge reads 1; every
`set_health_status b` call writes exactly 1 when `b` is true and 0 when it
is false; and along any sequence of registry operations starting from
construction the health gauge is always 0 or 1. -/
theorem C10_health_gauge_binary (sn : String) (now : Nat) (port : Option Nat)
    (pm : List (String × Nat)) :
    (MetricsRegistry.init sn now port pm).health_status = 1 ∧
    (∀ (r : MetricsRegistry) (b : Bool),
      (r.set_health_status b).health_status = if b then 1 else 0) ∧
    (∀ ops : List RegOp,
      (ops.foldl RegOp.apply (MetricsRegistry.init sn now port pm)).health_status = 0 ∨
      (ops.foldl RegOp.apply (MetricsRegistry.init sn now port pm)).health_status = 1) := by
  refine ⟨rfl, fun r b => rfl, ?_⟩
  have hgen : ∀ (ops : List RegOp) (r : MetricsRegistry),
      r.health_status = 0 ∨ r.health_status = 1 →
      (ops.foldl RegOp.apply r).health_status = 0 ∨
      (ops.foldl RegOp.apply r).health_status = 1 := by
    intro ops
    induction ops with
    | nil => exact fun r h => h
    | cons op rest ih =>
      intro r h
      exact ih (RegOp.apply r op) (RegOp.apply_health r op h)
  exact fun ops => hgen ops (MetricsRegistry.init sn now port pm) (Or.inr rfl)

/-! ## Lemmas about the instrumentation wrapper -/

/-- Incrementing a labelled counter bumps exactly the addressed cell. -/
lemma counterGet_counterInc_self (lbl : String × String)
    (tbl : List ((String × String) × Nat)) :
    counterGet lbl (counterInc lbl tbl) = counterGet lbl tbl + 1 := by
  simp [counterInc, counterGet, lookup_dictInsert_self]

/-- Incrementing a labelled counter leaves every other cell unchanged. -/
lemma counterGet_counterInc_ne (lbl lbl₂ : String × String)
    (tbl : List ((String × String) × Nat)) (hne : lbl₂ ≠ lbl) :
    counterGet lbl₂ (counterInc lbl tbl) = counterGet lbl₂ tbl := by
  simp [counterInc, counterGet, lookup_dictInsert_ne lbl lbl₂ _ hne]

/-- On a failure with a resolvable registry, the wrapper records the failure
metric at component `main`, marks health down, stores the updated registry,
clears the correlation slot, and re-raises the same error. -/
lemma manage_metrics_err (sname fname : String) (e : String) (afs kw : Option String)
    (n gen : String) (w : WorldState) (r : MetricsRegistry)
    (hargs : afs = some n ∨ (afs = none ∧ kw = some n))
    (hres : get_metrics_registry w.gs n = some r) :
    manage_metrics sname fname (Except.error e : Except String α) afs kw gen w =
      ⟨⟨{ w.gs with service_registries := dictInsert n ((r.record_error fname "main").set_health_status false) w.gs.service_registries }, none⟩, Except.error e⟩ := by
  rcases hargs with h | ⟨h₁, h₂⟩
  · subst h
    rw [manage_metrics]
    simp only [get_correlation_id, set_correlation_id, hres, Option.map_some']
    try rfl
  · subst h₁; subst h₂
    rw [manage_metrics]
    simp only [get_correlation_id, set_correlation_id, hres, Option.map_some']
    try rfl

/-- C3: when the wrapped function signals a failure and the call's arguments
resolve a cached registry, one wrapped invocation increments the
failure-tagged error counter with component `main` by exactly one (every
other label pair unchanged), sets the health gauge to 0, and re-signals the
identical failure to the caller. -/
theorem C3_wrapper_failure_path (sname fname e : String) (afs kw : Option String)
    (n gen : String) (w : WorldState) (r : MetricsRegistry)
    (hargs : afs = some n ∨ (afs = none ∧ kw = some n))
    (hres : get_metrics_registry w.gs n = some r) :
    (manage_metrics sname fname (Except.error e : Except String Nat) afs kw gen w).result
      = Except.error e ∧
    Option.map (fun q => counterGet (fname, "main") q.errors_total)
        (get_metrics_registry
          (manage_metrics sname fname (Except.error e : Except String Nat) afs kw gen w).world.gs n)
      = some (counterGet (fname, "main") r.errors_total + 1) ∧
    (∀ lbl : String × String, lbl ≠ (fname, "main") →
      Option.map (fun q => counterGet lbl q.errors_total)
        (get_metrics_registry
          (manage_metrics sname fname (Except.error e : Except String Nat) afs kw gen w).world.gs n)
      = some (counterGet lbl r.errors_total)) ∧
    Option.map (fun q => q.health_status)
        (get_metrics_registry
          (manage_metrics sname fname (Except.error e : Except String Nat) afs kw gen w).world.gs n)
      = some 0 := by
  rw [manage_metrics_err sname fname e afs kw n gen w r hargs hres]
  refine ⟨rfl, ?_, ?_, ?_⟩
  · simp only [get_metrics_registry, lookup_dictInsert_self, Option.map_some']
    rw [show ((r.record_error fname "main").set_health_status false).errors_total
        = counterInc (fname, "main") r.errors_total from rfl]
    rw [counterGet_counterInc_self]
  · intro lbl hlbl
    simp only [get_metrics_registry, lookup_dictInsert_self, Option.map_some']
    rw [show ((r.record_error fname "main").set_health_status false).errors_total
        = counterInc (fname, "main") r.errors_total from rfl]
    rw [counterGet_counterInc_ne (fname, "main") lbl r.errors_total hlbl]
  · simp only [get_metrics_registry, lookup_dictInsert_self, Option.map_some']
    rfl

/-- Witness for C3: one failing invocation against a freshly initialised
cached registry for `svc` re-raises the error, bumps the failure counter at
component `main` to 1 (another label still reads 0), and drops health
to 0. -/
theorem C3_wrapper_failure_path_witness :
    (manage_metrics "execution_success" "execution_failure"
        (Except.error "boom" : Except String Nat) (some "svc") none "req"
        ⟨⟨[("svc", MetricsRegistry.init "svc" 0 none [])], []⟩, none⟩).result
      = Except.error "boom" ∧
    Option.map (fun q => counterGet ("execution_failure", "main") q.errors_total)
        (get_metrics_registry
          (manage_metrics "execution_success" "execution_failure"
            (Except.error "boom" : Except String Nat) (some "svc") none "req"
            ⟨⟨[("svc", MetricsRegistry.init "svc" 0 none [])], []⟩, none⟩).world.gs "svc")
      = some 1 ∧
    Option.map (fun q => counterGet ("other", "main") q.errors_total)
        (get_metrics_registry
          (manage_metrics "execution_success" "execution_failure"
            (Except.error "boom" : Except String Nat) (some "svc") none "req"
            ⟨⟨[("svc", MetricsRegistry.init "svc" 0 none [])], []⟩, none⟩).world.gs "svc")
      = some 0 ∧
    Option.map (fun q => q.health_status)
        (get_metrics_registry
          (manage_metrics "execution_success" "execution_failure"
            (Except.error "boom" : Except String Nat) (some "svc") none "req"
            ⟨⟨[("svc", MetricsRegistry.init "svc" 0 none [])], []⟩, none⟩).world.gs "svc")
      = some 0 := by
  have h := C3_wrapper_failure_path "execution_success" "execution_failure" "boom"
    (some "svc") none "svc" "req"
    ⟨⟨[("svc", MetricsRegistry.init "svc" 0 none [])], []⟩, none⟩
    (MetricsRegistry.init "svc" 0 none []) (Or.inl rfl) rfl
  exact ⟨h.1, h.2.1, h.2.2.1 ("other", "main") (by decide), h.2.2.2⟩

/-- Whatever the wrapped function does and however the registry resolves,
the `finally` block leaves the correlation slot cleared. -/
lemma manage_metrics_correlation_none (sname fname gen : String)
    (f : Except String α) (afs kw : Option String) (w : WorldState) :
    (manage_metrics sname fname f afs kw gen w).world.correlation = none := by
  cases f with
  | error e =>
    simp only [manage_metrics]
    cases afs with
    | some s =>
      cases hm : get_metrics_registry w.gs s with
      | none => simp [hm, set_correlation_id]
      | some r => simp [hm, set_correlation_id]
    | none =>
      cases kw with
      | none => simp [set_correlation_id]
      | some s =>
        cases hm : get_metrics_registry w.gs s with
        | none => simp [hm, set_correlation_id]
        | some r => simp [hm, set_correlation_id]
  | ok v =>
    simp only [manage_metrics]
    cases afs with
    | some s =>
      cases hm : get_metrics_registry w.gs s with
      | none => simp [hm, set_correlation_id]
      | some r =>
        cases hi : successInstr r sname with
        | ok r₃ => simp [hm, hi, set_correlation_id]
        | error e => simp [hm, hi, set_correlation_id]
    | none =>
      cases kw with
      | none => simp [set_correlation_id]
      | some s =>
        cases hm : get_metrics_registry w.gs s with
        | none => simp [hm, set_correlation_id]
        | some r =>
          cases hi : successInstr r sname with
          | ok r₃ => simp [hm, hi, set_correlation_id]
          | error e => simp [hm, hi, set_correlation_id]

/-- C5: setting a correlation id and reading it back in the same execution
context returns the same id, and after a wrapped call completes — by
success or by failure, with or without a resolvable registry — the
context's correlation slot reads as absent. -/
theorem C5_correlation_roundtrip_cleared (slot : Option String) (i : String)
    (sname fname gen : String) (f : Except String Nat) (afs kw : Option String)
    (w : WorldState) :
    get_correlation_id (set_correlation_id slot (some i)) = some i ∧
    (manage_metrics sname fname f afs kw gen w).world.correlation = none :=
  ⟨rfl, manage_metrics_correlation_none sname fname gen f afs kw w⟩

/-- If the flag is never set, the poll loop reports false. -/
lemma async_wait_aux_never_set (is_set : Nat → Bool) (timeout check_interval : ℚ)
    (hnever : ∀ m, is_set m = false) :
    ∀ (fuel k : Nat), (async_wait_aux is_set timeout check_interval fuel k).1 = false := by
  intro fuel
  induction fuel with
  | zero => intro k; exact hnever k
  | succ fuel ih =>
    intro k
    rw [async_wait_aux]
    by_cases hc : (k : ℚ) * check_interval < timeout
    · rw [if_pos hc, hnever k]
      simp only [Bool.false_eq_true, if_false]
      exact ih (k + 1)
    · rw [if_neg hc]
      exact hnever k

/-- If the flag is already set at the first check, the loop returns true at
once without sleeping. -/
lemma async_wait_aux_set_at_start (is_set : Nat → Bool) (timeout check_interval : ℚ)
    (fuel k : Nat) (h0 : is_set k = true) :
    async_wait_aux is_set timeout check_interval (fuel + 1) k = (true, []) := by
  rw [async_wait_aux]
  by_cases hc : (k : ℚ) * check_interval < timeout
  · rw [if_pos hc, h0]
    simp
  · rw [if_neg hc, h0]

/-- Every recorded sleep slice is exactly
`min check_interval (timeout - elapsed)` for its check index, and that
check happened strictly before the deadline. -/
lemma async_wait_aux_slices (is_set : Nat → Bool) (timeout check_interval : ℚ) :
    ∀ (fuel k j : Nat) (s : ℚ),
      (async_wait_aux is_set timeout check_interval fuel k).2.get? j = some s →
      s = min check_interval (timeout - ((k + j : Nat) : ℚ) * check_interval) ∧
        ((k + j : Nat) : ℚ) * check_interval < timeout := by
  intro fuel
  induction fuel with
  | zero =>
    intro k j s h
    simp [async_wait_aux] at h
  | succ fuel ih =>
    intro k j s h
    rw [async_wait_aux] at h
    by_cases hc : (k : ℚ) * check_interval < timeout
    · rw [if_pos hc] at h
      cases hset : is_set k with
      | true => rw [hset] at h; simp at h
      | false =>
        rw [hset] at h
        simp only [Bool.false_eq_true, if_false] at h
        cases j with
        | zero =>
          simp only [List.get?_cons_zero, Option.some_inj] at h
          subst h
          rw [Nat.add_zero]
          exact ⟨rfl, hc⟩
        | succ j =>
          simp only [List.get?_cons_succ] at h
          have := ih (k + 1) j s h
          rwa [show k + 1 + j = k + (j + 1) by omega] at this
    · rw [if_neg hc] at h
      simp at h

/-- Check indices at or past the ceiling of `timeout / check_interval` lie
at or past the deadline. -/
lemma ceil_check_bound (timeout check_interval : ℚ) (hI : 0 < check_interval)
    (m : Nat) (hm : ⌈timeout / check_interval⌉₊ ≤ m) :
    ¬ ((m : ℚ) * check_interval < timeout) := by
  intro hlt
  have h1 : (m : ℚ) < timeout / check_interval := (lt_div_iff₀ hI).mpr hlt
  have h2 : timeout / check_interval ≤ (⌈timeout / check_interval⌉₊ : ℚ) :=
    Nat.le_ceil _
  have h4 : m < ⌈timeout / check_interval⌉₊ := by
    exact_mod_cast lt_of_lt_of_le h1 h2
  omega

/-- With fuel past the loop's real iteration count, a false return means
the flag read false at every check index before the deadline. -/
lemma async_wait_aux_false_all_clear (is_set : Nat → Bool)
    (timeout check_interval : ℚ) (hI : 0 < check_interval) :
    ∀ (fuel k : Nat), ⌈timeout / check_interval⌉₊ + 1 ≤ fuel + k →
      (async_wait_aux is_set timeout check_interval fuel k).1 = false →
      ∀ j : Nat, ((k + j : Nat) : ℚ) * check_interval < timeout →
        is_set (k + j) = false := by
  intro fuel
  induction fuel with
  | zero =>
    intro k hfuel hres j hj
    exact absurd hj (ceil_check_bound timeout check_interval hI (k + j) (by omega))
  | succ fuel ih =>
    intro k hfuel hres j hj
    rw [async_wait_aux] at hres
    by_cases hc : (k : ℚ) * check_interval < timeout
    · rw [if_pos hc] at hres
      cases hset : is_set k with
      | true => rw [hset] at hres; simp at hres
      | false =>
        rw [hset] at hres
        simp only [Bool.false_eq_true, if_false] at hres
        cases j with
        | zero => rw [Nat.add_zero]; exact hset
        | succ j =>
          have hstep := ih (k + 1) (by omega) hres j
            (by rw [show k + 1 + j = k + (j + 1) by omega]; exact hj)
          rwa [show k + 1 + j = k + (j + 1) by omega] at hstep
    · exfalso
      have hle : (k : ℚ) * check_interval ≤ ((k + j : Nat) : ℚ) * check_interval := by
        have : ((k : Nat) : ℚ) ≤ ((k + j : Nat) : ℚ) := by
          exact_mod_cast Nat.le_add_right k j
        exact mul_le_mul_of_nonneg_right this (le_of_lt hI)
      exact hc (lt_of_le_of_lt hle hj)

/-- C6: `async_wait_for_termination` returns false when the flag stays
clear for the whole timeout; returns true immediately (no sleep) when the
flag is set at the first check; each recorded sleep slice equals
`min(check_interval, timeout - elapsed)` for a check strictly before the
deadline — so no slice exceeds the poll interval or the remaining timeout;
and a false return means the flag read false at every check made before
the deadline, i.e. the wait returns true as soon as a check observes the
flag set. -/
theorem C6_wait_for_termination (is_set : Nat → Bool)
    (timeout check_interval : ℚ) (hI : 0 < check_interval) :
    ((∀ m, is_set m = false) →
      (async_wait_for_termination is_set timeout check_interval).1 = false) ∧
    (is_set 0 = true →
      async_wait_for_termination is_set timeout check_interval = (true, [])) ∧
    (∀ (j : Nat) (s : ℚ),
      (async_wait_for_termination is_set timeout check_interval).2.get? j = some s →
      s = min check_interval (timeout - ((j : Nat) : ℚ) * check_interval) ∧
        ((j : Nat) : ℚ) * check_interval < timeout) ∧
    ((async_wait_for_termination is_set timeout check_interval).1 = false →
      ∀ k : Nat, ((k : Nat) : ℚ) * check_interval < timeout → is_set k = false) := by
  refine ⟨?_, ?_, ?_, ?_⟩
  · intro hnever
    exact async_wait_aux_never_set is_set timeout check_interval hnever _ 0
  · intro h0
    exact async_wait_aux_set_at_start is_set timeout check_interval _ 0 h0
  · intro j s h
    have := async_wait_aux_slices is_set timeout check_interval _ 0 j s h
    rwa [Nat.zero_add] at this
  · intro hres k hk
    have := async_wait_aux_false_all_clear is_set timeout check_interval hI
      (⌈timeout / check_interval⌉₊ + 1) 0 (by omega) hres k
    rw [Nat.zero_add] at this
    exact this hk

/-- Witness for C6: with interval 1/2 and timeout 2 the wait returns false
when the flag is never set, returns `(true, [])` when the flag is set from
the start, and its first recorded sleep slice is exactly
`min(1/2, 2 - 0)`. -/
theorem C6_wait_for_termination_witness :
    (async_wait_for_termination (fun _ => false) 2 (1 / 2)).1 = false ∧
    async_wait_for_termination (fun _ => true) 2 (1 / 2) = (true, []) ∧
    ((1 : ℚ) / 2 = min ((1 : ℚ) / 2) (2 - ((0 : Nat) : ℚ) * (1 / 2)) ∧
      ((0 : Nat) : ℚ) * (1 / 2) < 2) ∧
    (fun _ : Nat => false) 0 = false := by
  refine ⟨?_, ?_, ?_, ?_⟩
  · exact (C6_wait_for_termination (fun _ => false) 2 (1 / 2) (by norm_num)).1
      (fun m => rfl)
  · exact (C6_wait_for_termination (fun _ => true) 2 (1 / 2) (by norm_num)).2.1 rfl
  · exact (C6_wait_for_termination (fun _ => false) 2 (1 / 2) (by norm_num)).2.2.1 0
      (1 / 2) (by rw [async_wait_for_termination]; norm_num [async_wait_aux])
  · exact (C6_wait_for_termination (fun _ => false) 2 (1 / 2) (by norm_num)).2.2.2
      (by rw [async_wait_for_termination]; norm_num [async_wait_aux]) 0 (by norm_num)
